import Mathlib

/-
Verification development for the spreadsheets-utilities repository.

Shallow embedding of the core modules:
  * src/src/lib/duplicate-checker.ts  (match engine, merge engine, statistics)
  * src/src/lib/result-processor.ts   (result validator)
  * src/src/lib/session.ts            (session lifecycle manager)

Modelling conventions:
  * JavaScript scalar cell values are modelled by the inductive type `Value`.
    JS numbers are modelled as rationals; `null` and `undefined` are collapsed
    into `Value.vNull` because every code path in scope treats them alike
    (each check in the source is written `x === null || x === undefined`).
  * A JS row object is modelled as `Rec`: an ordered association list of
    fields plus a numeric tag `rid` standing for the object reference, so
    that the reference comparisons (`===` on records) in the source can be
    expressed.  Distinct parsed rows are distinct objects, which corresponds
    to pairwise different `rid` tags.
  * Throwing code is modelled with `Except String`.
  * Timestamps (`Date.getTime()` values) are integers (milliseconds).
-/

inductive Value where
  | vNull : Value
  | vNum : ℚ → Value
  | vStr : String → Value
  | vBool : Bool → Value
deriving DecidableEq, Repr

/-- JS `String(v)` conversion. Integer numbers print like JS integers; the
rendering of non-integer rationals is a placeholder (JS shortest-round-trip
float printing is not representable over `ℚ`) and is never relied upon by a
theorem or witness in this file. -/
def jsString : Value → String
  | Value.vNull => "null"
  | Value.vStr s => s
  | Value.vBool b => if b then "true" else "false"
  | Value.vNum q => if q.den = 1 then toString q.num else toString q

structure Rec where
  rid : Nat
  fields : List (String × Value)
deriving DecidableEq, Repr

def getFieldList : List (String × Value) → String → Option Value
  | [], _ => none
  | (k, v) :: rest, key => if k = key then some v else getFieldList rest key

def setFieldList : List (String × Value) → String → Value → List (String × Value)
  | [], key, v => [(key, v)]
  | (k, w) :: rest, key, v =>
    if k = key then (k, v) :: rest else (k, w) :: setFieldList rest key v

/-- Property lookup on a JS object: `some v` when the key is present
(`key in obj`), `none` when absent. -/
def Rec.getField (r : Rec) (key : String) : Option Value :=
  getFieldList r.fields key

/-- Property assignment `obj[key] = v`: overwrite in place if present,
append otherwise (JS insertion order). -/
def Rec.setField (r : Rec) (key : String) (v : Value) : Rec :=
  { rid := r.rid, fields := setFieldList r.fields key v }

/-- Raw member access `record[key]`: `undefined` (collapsed to `vNull`)
when the key is absent. -/
def jsGet (r : Rec) (key : String) : Value :=
  (r.getField key).getD Value.vNull

/-- Embeds `getColumnValue` of duplicate-checker.ts:
`if (!record || !columnName) return null; return record[columnName] ?? null`. -/
def getColumnValue (record : Rec) (columnName : String) : Value :=
  if columnName = "" then Value.vNull else jsGet record columnName

/-- JS `String.prototype.trim`: drop whitespace from both ends. -/
def jsTrim (s : String) : String :=
  String.mk (((s.data.dropWhile Char.isWhitespace).reverse.dropWhile Char.isWhitespace).reverse)

/-- JS `String.prototype.toLowerCase` (ASCII case folding suffices for the
claims in scope). -/
def jsToLower (s : String) : String :=
  String.mk (s.data.map Char.toLower)

/-- Embeds `isValueMatch` of duplicate-checker.ts. -/
def isValueMatch (value1 value2 : Value) : Bool :=
  if value1 = Value.vNull ∨ value2 = Value.vNull then decide (value1 = value2)
  else decide (jsToLower (jsTrim (jsString value1)) = jsToLower (jsTrim (jsString value2)))

/-- Numeric value of a digit string. -/
def digitsToNat (ds : List Char) : Nat :=
  ds.foldl (fun a c => 10 * a + (c.toNat - 48)) 0

/-- Embeds JS `parseFloat` on a string: skip leading whitespace, optional
sign, decimal digits with an optional fractional part; `none` models `NaN`.
(The exponent form and `Infinity` are not modelled; no theorem or witness in
this file exercises them.) -/
def parseFloatStr (s : String) : Option ℚ :=
  let cs0 := s.data.dropWhile Char.isWhitespace
  let signRest : ℚ × List Char :=
    match cs0 with
    | '-' :: rest => (-1, rest)
    | '+' :: rest => (1, rest)
    | _ => (1, cs0)
  let intDigits := signRest.2.takeWhile Char.isDigit
  let afterInt := signRest.2.dropWhile Char.isDigit
  let fracDigits : List Char :=
    match afterInt with
    | '.' :: rest => rest.takeWhile Char.isDigit
    | _ => []
  if intDigits.isEmpty && fracDigits.isEmpty then none
  else
    some (signRest.1 *
      ((digitsToNat intDigits : ℚ) + (digitsToNat fracDigits : ℚ) / (10 : ℚ) ^ fracDigits.length))

/-- `parseFloat(String(v))`, the numeric coercion used by
`performNumericOperation`. -/
def coerceNum (v : Value) : Option ℚ :=
  parseFloatStr (jsString v)

/-- `Math.round(x * 100) / 100`; JS `Math.round` is floor of `x + 1/2`. -/
def round2 (q : ℚ) : ℚ :=
  ((⌊q * 100 + 1 / 2⌋ : ℤ) : ℚ) / 100

/-- Embeds `performNumericOperation` of duplicate-checker.ts. -/
def performNumericOperation (value1 value2 : Value) (operation : ℚ → ℚ → ℚ) : Value :=
  match coerceNum value1, coerceNum value2 with
  | some num1, some num2 => Value.vNum (round2 (operation num1 num2))
  | _, _ => value1

/-- Embeds `applyMergeOperation` of duplicate-checker.ts, including the
null-handling preamble and the string-keyed operator dispatch with its
keep-first-value default branch. -/
def applyMergeOperation (value1 value2 : Value) (operation : String) : Value :=
  if value1 = Value.vNull then
    (if operation = "TAKE_OLD" then value1 else value2)
  else if value2 = Value.vNull then
    (if operation = "TAKE_NEW" then value2 else value1)
  else if operation = "MERGE_ALL" then value1
  else if operation = "TAKE_NEW" then value2
  else if operation = "TAKE_OLD" then value1
  else if operation = "SUM" then performNumericOperation value1 value2 (fun a b => a + b)
  else if operation = "SUBTRACT" then performNumericOperation value1 value2 (fun a b => a - b)
  else if operation = "MULTIPLY" then performNumericOperation value1 value2 (fun a b => a * b)
  else if operation = "DIVIDE" then
    performNumericOperation value1 value2 (fun a b => if b = 0 then a else a / b)
  else if operation = "AVG" then performNumericOperation value1 value2 (fun a b => (a + b) / 2)
  else if operation = "MIN" then performNumericOperation value1 value2 (fun a b => min a b)
  else if operation = "MAX" then performNumericOperation value1 value2 (fun a b => max a b)
  else if operation = "CONCATENATE" then
    Value.vStr (jsString value1 ++ " | " ++ jsString value2)
  else value1

structure FileData where
  data : List Rec
  columns : List String
deriving DecidableEq, Repr

structure ColumnMapping where
  file1Column : String
  file2Column : String
deriving DecidableEq, Repr

structure MergeOperation where
  column : String
  operation : String
deriving DecidableEq, Repr

structure MergeOptions where
  operations : List MergeOperation
deriving DecidableEq, Repr

structure Stats where
  totalFile1 : Nat
  totalFile2 : Nat
  duplicateCount : Nat
  uniqueFile1Count : Nat
  uniqueFile2Count : Nat
  mergedCount : Nat
deriving DecidableEq, Repr

/-- `ProcessedData` without the wall-clock `processedAt` field (no claim
mentions it). -/
structure ProcessedData where
  duplicates : List Rec
  uniqueInFile1 : List Rec
  uniqueInFile2 : List Rec
  merged : List Rec
  stats : Stats
deriving DecidableEq, Repr

/-- The inner `for` loop of `findDuplicatesAndUnique`: scan for the first
element satisfying `p`; on success return it together with the list with
that element spliced out (`uniqueInFile2.splice(i, 1)`). -/
def extractFirstMatch (p : Rec → Bool) : List Rec → Option (Rec × List Rec)
  | [] => none
  | r :: rest =>
    if p r then some (r, rest)
    else
      match extractFirstMatch p rest with
      | some q => some (q.1, r :: q.2)
      | none => none

/-- The outer loop of `findDuplicatesAndUnique`: walk file1 records in order,
threading the shrinking working copy of file2. Returns
`(duplicates, uniqueInFile1, uniqueInFile2)`. -/
def fduGo (m : ColumnMapping) : List Rec → List Rec → List (Rec × Rec) × List Rec × List Rec
  | [], u2 => ([], [], u2)
  | r1 :: rest, u2 =>
    match extractFirstMatch
        (fun r2 => isValueMatch (getColumnValue r1 m.file1Column) (getColumnValue r2 m.file2Column)) u2 with
    | some p =>
      ((r1, p.1) :: (fduGo m rest p.2).1, (fduGo m rest p.2).2.1, (fduGo m rest p.2).2.2)
    | none =>
      ((fduGo m rest u2).1, r1 :: (fduGo m rest u2).2.1, (fduGo m rest u2).2.2)

/-- Embeds `findDuplicatesAndUnique` of duplicate-checker.ts. -/
def findDuplicatesAndUnique (file1 file2 : FileData) (columnMapping : ColumnMapping) :
    List (Rec × Rec) × List Rec × List Rec :=
  fduGo columnMapping file1.data file2.data

/-- `mergeOptions.operations.find(op => op.operation === "MERGE_ALL")` is
used only as an existence test. -/
def hasMergeAll (mergeOptions : MergeOptions) : Bool :=
  mergeOptions.operations.any (fun op => decide (op.operation = "MERGE_ALL"))

/-- The MERGE_ALL branch of `mergeDuplicateRecords` for one pair: start from
a copy of file1Record; for each file2 column, on a value conflict add a
`file2_`-prefixed column, on a missing column add it, on an equal value keep
file1. -/
def mergeAllPair (file1Record file2Record : Rec) : Rec :=
  file2Record.fields.foldl
    (fun acc kv =>
      match getFieldList acc.fields kv.1 with
      | some v1 => if v1 ≠ kv.2 then acc.setField ("file2_" ++ kv.1) kv.2 else acc
      | none => acc.setField kv.1 kv.2)
    { rid := file1Record.rid, fields := file1Record.fields }

/-- One iteration of the regular per-column operation loop of
`mergeDuplicateRecords`. -/
def colStep (file1Record file2Record : Rec) (acc : Rec) (op : MergeOperation) : Rec :=
  if op.operation = "MERGE_ALL" then acc
  else
    acc.setField op.column
      (applyMergeOperation (jsGet file1Record op.column) (jsGet file2Record op.column) op.operation)

/-- The column-operation branch of `mergeDuplicateRecords` for one pair. -/
def columnOpMerge (mergeOptions : MergeOptions) (file1Record file2Record : Rec) : Rec :=
  mergeOptions.operations.foldl (colStep file1Record file2Record)
    { rid := file1Record.rid, fields := file1Record.fields }

/-- The body of the `duplicates.map` in `mergeDuplicateRecords`. -/
def mergePair (mergeOptions : MergeOptions) (file1Record file2Record : Rec) : Rec :=
  if hasMergeAll mergeOptions then mergeAllPair file1Record file2Record
  else columnOpMerge mergeOptions file1Record file2Record

/-- Embeds `mergeDuplicateRecords` of duplicate-checker.ts. -/
def mergeDuplicateRecords (duplicates : List (Rec × Rec)) (mergeOptions : MergeOptions) :
    List Rec :=
  duplicates.map (fun p => mergePair mergeOptions p.1 p.2)

/-- Embeds `calculateStatistics` of duplicate-checker.ts. -/
def calculateStatistics (file1 file2 : FileData) (duplicates : List (Rec × Rec))
    (uniqueInFile1 uniqueInFile2 merged : List Rec) : Stats :=
  { totalFile1 := file1.data.length
    totalFile2 := file2.data.length
    duplicateCount := duplicates.length
    uniqueFile1Count := uniqueInFile1.length
    uniqueFile2Count := uniqueInFile2.length
    mergedCount := merged.length }

/-- The per-operation validation loop that runs when MERGE_ALL is absent. -/
def validateOperationColumns (allColumns : List String) :
    List MergeOperation → Except String Unit
  | [] => Except.ok ()
  | op :: rest =>
    if op.column = "" ∨ op.operation = "" then
      Except.error ("Invalid merge operation configuration")
    else if op.column ∉ allColumns then
      Except.error ("Column " ++ op.column ++ " specified in merge operations not found in either file")
    else validateOperationColumns allColumns rest

/-- The final validation loop (always runs). -/
def validateOperationsPresent : List MergeOperation → Except String Unit
  | [] => Except.ok ()
  | op :: rest =>
    if op.operation = "" then
      Except.error ("Invalid merge operation configuration - missing operation")
    else validateOperationsPresent rest

/-- Embeds `validateProcessingInputs` of duplicate-checker.ts. Empty strings
model missing (falsy) column names. -/
def validateProcessingInputs (file1 file2 : FileData) (columnMapping : ColumnMapping)
    (mergeOptions : MergeOptions) : Except String Unit :=
  if file1.data.length = 0 then Except.error ("File 1 is empty or invalid")
  else if file2.data.length = 0 then Except.error ("File 2 is empty or invalid")
  else if columnMapping.file1Column = "" ∨ columnMapping.file2Column = "" then
    Except.error ("Column mapping is incomplete")
  else if columnMapping.file1Column ∉ file1.columns then
    Except.error ("Column " ++ columnMapping.file1Column ++ " not found in File 1")
  else if columnMapping.file2Column ∉ file2.columns then
    Except.error ("Column " ++ columnMapping.file2Column ++ " not found in File 2")
  else if mergeOptions.operations.length = 0 then
    Except.error ("No merge operations specified")
  else
    match
      (if hasMergeAll mergeOptions then Except.ok ()
       else validateOperationColumns (file1.columns ++ file2.columns) mergeOptions.operations) with
    | Except.error e => Except.error e
    | Except.ok _ => validateOperationsPresent mergeOptions.operations

/-- One iteration of the MERGE_ALL `file2.data.forEach` loop in
`processDuplicates`: skip records that occur as the file2 side of a
duplicate pair (reference comparison), append a spread copy of the rest.
(The inner column-conflict loop in the source is entirely commented out and
mutates nothing.) -/
def pushUnlessDuplicate (duplicates : List (Rec × Rec)) (acc : List Rec) (file2Record : Rec) :
    List Rec :=
  if duplicates.any (fun dup => decide (dup.2 = file2Record)) then acc
  else acc ++ [{ rid := file2Record.rid, fields := file2Record.fields }]

/-- One iteration of the `duplicates.forEach` replacement loop in the
MERGE_ALL branch of `processDuplicates`: find the file1 record by reference
(`findIndex`) and overwrite it in place with its merged version. -/
def replaceMergedStep (duplicateMerged : List Rec) (acc : List Rec) (x : Nat × (Rec × Rec)) :
    List Rec :=
  match acc.findIdx? (fun record => decide (record = x.2.1)) with
  | some i => acc.set i (duplicateMerged.getD x.1 x.2.1)
  | none => acc

/-- The result construction of `processDuplicates` (after input validation
succeeded). -/
def buildProcessedData (file1 file2 : FileData) (columnMapping : ColumnMapping)
    (mergeOptions : MergeOptions) : ProcessedData :=
  let r := findDuplicatesAndUnique file1 file2 columnMapping
  let merged : List Rec :=
    if hasMergeAll mergeOptions then
      (r.1.enum).foldl (replaceMergedStep (mergeDuplicateRecords r.1 mergeOptions))
        (file2.data.foldl (pushUnlessDuplicate r.1) file1.data)
    else
      mergeDuplicateRecords r.1 mergeOptions
  { duplicates := r.1.map (fun p => p.1)
    uniqueInFile1 := r.2.1
    uniqueInFile2 := r.2.2
    merged := merged
    stats := calculateStatistics file1 file2 r.1 r.2.1 r.2.2 merged }

/-- The try-block of `processDuplicates`. -/
def processDuplicatesCore (file1 file2 : FileData) (columnMapping : ColumnMapping)
    (mergeOptions : MergeOptions) : Except String ProcessedData :=
  match validateProcessingInputs file1 file2 columnMapping mergeOptions with
  | Except.error e => Except.error e
  | Except.ok _ => Except.ok (buildProcessedData file1 file2 columnMapping mergeOptions)

/-- Embeds `processDuplicates` of duplicate-checker.ts; the catch block
rewraps any error message. -/
def processDuplicates (file1 file2 : FileData) (columnMapping : ColumnMapping)
    (mergeOptions : MergeOptions) : Except String ProcessedData :=
  match processDuplicatesCore file1 file2 columnMapping mergeOptions with
  | Except.ok d => Except.ok d
  | Except.error e => Except.error ("Duplicate processing failed: " ++ e)

/-
Embedding of src/src/lib/result-processor.ts `validateResults`.

The function is typed against `ProcessedData` but its first checks ask
whether the four result fields are "actually array-shaped", so its intended
domain includes loosely-typed values.  `JArr.jnull` stands for a non-array
field value with no `length` property (`null`/`undefined`); reading
`.length` from it throws a TypeError, modelled by `Except.error`.
-/

inductive JArr where
  | arr : List Rec → JArr
  | jnull : JArr
deriving DecidableEq, Repr

structure LooseProcessedData where
  duplicates : JArr
  uniqueInFile1 : JArr
  uniqueInFile2 : JArr
  merged : JArr
  stats : Option Stats
deriving DecidableEq, Repr

/-- `Array.isArray`. -/
def isArrayB : JArr → Bool
  | JArr.arr _ => true
  | JArr.jnull => false

/-- `x.length`: throws on `null`/`undefined`. -/
def jsLength : JArr → Except String Nat
  | JArr.arr l => Except.ok l.length
  | JArr.jnull => Except.error ("TypeError: cannot read length")

/-- Embeds `validateResults` of result-processor.ts: the four shape checks
and six count checks accumulate into `errors` (an error push is rendered as
appending a singleton), and `valid` is `errors.length === 0`. -/
def validateResults (results : LooseProcessedData) : Except String (Bool × List String) :=
  let e1 := if isArrayB results.duplicates then ([] : List String) else ["Duplicates data is invalid"]
  let e2 := if isArrayB results.uniqueInFile1 then ([] : List String) else ["Unique File 1 data is invalid"]
  let e3 := if isArrayB results.uniqueInFile2 then ([] : List String) else ["Unique File 2 data is invalid"]
  let e4 := if isArrayB results.merged then ([] : List String) else ["Merged data is invalid"]
  match results.stats with
  | none =>
    let errors := e1 ++ e2 ++ e3 ++ e4 ++ ["Statistics data is missing"]
    Except.ok (errors.isEmpty, errors)
  | some stats =>
    match jsLength results.duplicates with
    | Except.error e => Except.error e
    | Except.ok ld =>
      match jsLength results.uniqueInFile1 with
      | Except.error e => Except.error e
      | Except.ok l1 =>
        match jsLength results.uniqueInFile2 with
        | Except.error e => Except.error e
        | Except.ok l2 =>
          match jsLength results.merged with
          | Except.error e => Except.error e
          | Except.ok lm =>
            let e5 := if stats.duplicateCount ≠ ld then ["Duplicate count mismatch"] else []
            let e6 := if stats.uniqueFile1Count ≠ l1 then ["Unique File 1 count mismatch"] else []
            let e7 := if stats.uniqueFile2Count ≠ l2 then ["Unique File 2 count mismatch"] else []
            let e8 := if stats.mergedCount ≠ lm then ["Merged count mismatch"] else []
            let e9 := if stats.duplicateCount + stats.uniqueFile1Count ≠ stats.totalFile1 then
                ["File 1 total count mismatch"] else []
            let e10 := if stats.duplicateCount + stats.uniqueFile2Count ≠ stats.totalFile2 then
                ["File 2 total count mismatch"] else []
            let errors := e1 ++ e2 ++ e3 ++ e4 ++ e5 ++ e6 ++ e7 ++ e8 ++ e9 ++ e10
            Except.ok (errors.isEmpty, errors)

/-
Embedding of src/src/lib/session.ts.

A `SessionStore` collects the three module-level pieces of state:
`sessions`, the armed `setTimeout` objects (`timers`, tagged with a fresh
handle so that `clearTimeout` can cancel one specific timer), and the
`cleanupTimeouts` map from session id to the handle it last recorded.
`payload` abstracts the session fields (`files`, `results`, ...) other than
the identity and activity bookkeeping; `SessionUpdates` carries the fields a
`Partial<UserSession>` in scope may supply.
-/

def SESSION_TIMEOUT : Int := 15 * 60 * 1000

structure UserSession where
  id : String
  createdAt : Int
  lastActivity : Int
  payload : Nat
deriving DecidableEq, Repr

structure SessionUpdates where
  payload : Option Nat
  lastActivity : Option Int
deriving DecidableEq, Repr

def assocLookup {α : Type} : List (String × α) → String → Option α
  | [], _ => none
  | (k, v) :: rest, key => if k = key then some v else assocLookup rest key

def assocSet {α : Type} : List (String × α) → String → α → List (String × α)
  | [], key, v => [(key, v)]
  | (k, w) :: rest, key, v =>
    if k = key then (k, v) :: rest else (k, w) :: assocSet rest key v

def assocErase {α : Type} (l : List (String × α)) (key : String) : List (String × α) :=
  l.filter (fun kv => decide (kv.1 ≠ key))

structure SessionStore where
  sessions : List (String × UserSession)
  timers : List (Nat × String × Int)
  cleanupTimeouts : List (String × Nat)
  nextTimer : Nat
deriving DecidableEq, Repr

/-- Embeds `scheduleSessionCleanup`: cancel the timer recorded in
`cleanupTimeouts` (if any), arm a fresh timer for `now + SESSION_TIMEOUT`,
record its handle. -/
def scheduleSessionCleanup (now : Int) (sessionId : String) (st : SessionStore) : SessionStore :=
  let st1 :=
    match assocLookup st.cleanupTimeouts sessionId with
    | some h => { st with timers := st.timers.filter (fun t => decide (t.1 ≠ h)) }
    | none => st
  { st1 with
    timers := st1.timers ++ [(st1.nextTimer, sessionId, now + SESSION_TIMEOUT)]
    cleanupTimeouts := assocSet st1.cleanupTimeouts sessionId st1.nextTimer
    nextTimer := st1.nextTimer + 1 }

/-- Embeds `deleteSession`. -/
def deleteSession (sessionId : String) (st : SessionStore) : Bool × SessionStore :=
  match assocLookup st.sessions sessionId with
  | some _ =>
    let st1 :=
      match assocLookup st.cleanupTimeouts sessionId with
      | some h =>
        { st with
          timers := st.timers.filter (fun t => decide (t.1 ≠ h))
          cleanupTimeouts := assocErase st.cleanupTimeouts sessionId }
      | none => st
    (true, { st1 with sessions := assocErase st1.sessions sessionId })
  | none => (false, st)

/-- Embeds the callback passed to `setTimeout` in `scheduleSessionCleanup`,
run at wall-clock time `now`: re-read the session, delete only if the idle
time measured now is at least `SESSION_TIMEOUT`, otherwise reschedule; in
either case drop the `cleanupTimeouts` entry afterwards. -/
def sessionCleanupCallback (now : Int) (sessionId : String) (st : SessionStore) : SessionStore :=
  let st1 :=
    match assocLookup st.sessions sessionId with
    | some session =>
      if SESSION_TIMEOUT ≤ now - session.lastActivity then (deleteSession sessionId st).2
      else scheduleSessionCleanup now sessionId st
    | none => st
  { st1 with cleanupTimeouts := assocErase st1.cleanupTimeouts sessionId }

/-- Embeds `getSession`: stale sessions (idle strictly beyond the TTL) are
deleted and reported as not found; otherwise the read refreshes
`lastActivity` and re-arms the cleanup timer. -/
def getSession (now : Int) (sessionId : String) (st : SessionStore) :
    Option UserSession × SessionStore :=
  match assocLookup st.sessions sessionId with
  | none => (none, st)
  | some session =>
    if SESSION_TIMEOUT < now - session.lastActivity then
      (none, (deleteSession sessionId st).2)
    else
      (some { session with lastActivity := now },
        scheduleSessionCleanup now sessionId
          { st with sessions := assocSet st.sessions sessionId { session with lastActivity := now } })

/-- Embeds `updateSession`: a direct map read (no staleness check), merge of
the partial update with the id pinned and `lastActivity` taken from the
update if supplied (`updates.lastActivity || now`), then re-arm. -/
def updateSession (now : Int) (sessionId : String) (updates : SessionUpdates)
    (st : SessionStore) : Bool × SessionStore :=
  match assocLookup st.sessions sessionId with
  | none => (false, st)
  | some session =>
    let updatedSession : UserSession :=
      { id := sessionId
        createdAt := session.createdAt
        payload := updates.payload.getD session.payload
        lastActivity :=
          match updates.lastActivity with
          | some la => la
          | none => now }
    (true,
      scheduleSessionCleanup now sessionId
        { st with sessions := assocSet st.sessions sessionId updatedSession })

/-
Helper lemmas about the match-engine loops.
-/

theorem extractFirstMatch_length (p : Rec → Bool) :
    ∀ (l lrest : List Rec) (r : Rec), extractFirstMatch p l = some (r, lrest) →
      lrest.length + 1 = l.length := by
  intro l
  induction l with
  | nil => intro lrest r h; simp [extractFirstMatch] at h
  | cons a rest ih =>
    intro lrest r h
    by_cases hp : p a
    · simp [extractFirstMatch, hp] at h
      rw [← h.2]; simp
    · simp only [extractFirstMatch, hp, if_false, Bool.false_eq_true] at h
      cases hx : extractFirstMatch p rest with
      | none => rw [hx] at h; simp at h
      | some q =>
        rw [hx] at h
        simp only [Option.some.injEq, Prod.mk.injEq] at h
        have hq := ih q.2 q.1 (by rw [hx])
        rw [← h.2]
        simp only [List.length_cons]
        omega

theorem extractFirstMatch_perm (p : Rec → Bool) :
    ∀ (l lrest : List Rec) (r : Rec), extractFirstMatch p l = some (r, lrest) →
      l.Perm (r :: lrest) := by
  intro l
  induction l with
  | nil => intro lrest r h; simp [extractFirstMatch] at h
  | cons a rest ih =>
    intro lrest r h
    by_cases hp : p a
    · simp [extractFirstMatch, hp] at h
      rw [h.1, ← h.2]
    · simp only [extractFirstMatch, hp, if_false, Bool.false_eq_true] at h
      cases hx : extractFirstMatch p rest with
      | none => rw [hx] at h; simp at h
      | some q =>
        rw [hx] at h
        simp only [Option.some.injEq, Prod.mk.injEq] at h
        have hq := ih q.2 q.1 (by rw [hx])
        rw [← h.1, ← h.2]
        exact (hq.cons a).trans (List.Perm.swap q.1 a q.2)

theorem fduGo_length1 (m : ColumnMapping) :
    ∀ (l1 u2 : List Rec),
      (fduGo m l1 u2).1.length + (fduGo m l1 u2).2.1.length = l1.length := by
  intro l1
  induction l1 with
  | nil => intro u2; simp [fduGo]
  | cons r1 rest ih =>
    intro u2
    cases hx : extractFirstMatch
        (fun r2 => isValueMatch (getColumnValue r1 m.file1Column) (getColumnValue r2 m.file2Column)) u2 with
    | some q =>
      simp only [fduGo, hx, List.length_cons]
      have := ih q.2
      omega
    | none =>
      simp only [fduGo, hx, List.length_cons]
      have := ih u2
      omega

theorem fduGo_length2 (m : ColumnMapping) :
    ∀ (l1 u2 : List Rec),
      (fduGo m l1 u2).1.length + (fduGo m l1 u2).2.2.length = u2.length := by
  intro l1
  induction l1 with
  | nil => intro u2; simp [fduGo]
  | cons r1 rest ih =>
    intro u2
    cases hx : extractFirstMatch
        (fun r2 => isValueMatch (getColumnValue r1 m.file1Column) (getColumnValue r2 m.file2Column)) u2 with
    | some q =>
      simp only [fduGo, hx, List.length_cons]
      have h1 := ih q.2
      have h2 := extractFirstMatch_length _ u2 q.2 q.1 (by rw [hx])
      omega
    | none =>
      simp only [fduGo, hx]
      exact ih u2

theorem fduGo_perm (m : ColumnMapping) :
    ∀ (l1 u2 : List Rec),
      ((fduGo m l1 u2).1.map Prod.snd ++ (fduGo m l1 u2).2.2).Perm u2 := by
  intro l1
  induction l1 with
  | nil => intro u2; simp [fduGo]
  | cons r1 rest ih =>
    intro u2
    cases hx : extractFirstMatch
        (fun r2 => isValueMatch (getColumnValue r1 m.file1Column) (getColumnValue r2 m.file2Column)) u2 with
    | some q =>
      simp only [fduGo, hx, List.map_cons, List.cons_append]
      have h1 := ih q.2
      have h2 := extractFirstMatch_perm _ u2 q.2 q.1 (by rw [hx])
      exact (h1.cons q.1).trans h2.symm
    | none =>
      simp only [fduGo, hx]
      exact ih u2

/-- Claim C3: for all datasets and every column mapping, the match output
partitions both inputs: the number of duplicate pairs plus the number of
records unique to file 1 equals the size of file 1, and likewise for file 2;
equivalently, on the computed statistics, duplicateCount + uniqueFile1Count
= totalFile1 and duplicateCount + uniqueFile2Count = totalFile2. -/
theorem c3_partition_counts (file1 file2 : FileData) (m : ColumnMapping) (merged : List Rec) :
    ((findDuplicatesAndUnique file1 file2 m).1.length
        + (findDuplicatesAndUnique file1 file2 m).2.1.length = file1.data.length) ∧
    ((findDuplicatesAndUnique file1 file2 m).1.length
        + (findDuplicatesAndUnique file1 file2 m).2.2.length = file2.data.length) ∧
    ((calculateStatistics file1 file2 (findDuplicatesAndUnique file1 file2 m).1
        (findDuplicatesAndUnique file1 file2 m).2.1 (findDuplicatesAndUnique file1 file2 m).2.2
        merged).duplicateCount
      + (calculateStatistics file1 file2 (findDuplicatesAndUnique file1 file2 m).1
        (findDuplicatesAndUnique file1 file2 m).2.1 (findDuplicatesAndUnique file1 file2 m).2.2
        merged).uniqueFile1Count
      = (calculateStatistics file1 file2 (findDuplicatesAndUnique file1 file2 m).1
        (findDuplicatesAndUnique file1 file2 m).2.1 (findDuplicatesAndUnique file1 file2 m).2.2
        merged).totalFile1) ∧
    ((calculateStatistics file1 file2 (findDuplicatesAndUnique file1 file2 m).1
        (findDuplicatesAndUnique file1 file2 m).2.1 (findDuplicatesAndUnique file1 file2 m).2.2
        merged).duplicateCount
      + (calculateStatistics file1 file2 (findDuplicatesAndUnique file1 file2 m).1
        (findDuplicatesAndUnique file1 file2 m).2.1 (findDuplicatesAndUnique file1 file2 m).2.2
        merged).uniqueFile2Count
      = (calculateStatistics file1 file2 (findDuplicatesAndUnique file1 file2 m).1
        (findDuplicatesAndUnique file1 file2 m).2.1 (findDuplicatesAndUnique file1 file2 m).2.2
        merged).totalFile2) := by
  have h1 := fduGo_length1 m file1.data file2.data
  have h2 := fduGo_length2 m file1.data file2.data
  refine ⟨h1, h2, ?_, ?_⟩ <;> simp [calculateStatistics, findDuplicatesAndUnique] at h1 h2 ⊢ <;>
    simp [findDuplicatesAndUnique, h1, h2]

/-- Claim C4: matching is greedy, first-match, one-to-one. If file 1 is
`[x1, x2]` and file 2 is `[y]` where both x records match y on the mapped
columns, exactly one duplicate pair `(x1, y)` and one unique-to-file-1
record `x2` result; and if file 1 is `[x1]` and file 2 is `[y1, y2]` where
x1 matches both, x1 pairs with the first remaining file 2 record `y1`,
which is removed, leaving `y2` unique to file 2. -/
theorem c4_greedy_first_match (m : ColumnMapping) (cols1 cols2 : List String)
    (x1 x2 y y1 y2 : Rec)
    (h1 : isValueMatch (getColumnValue x1 m.file1Column) (getColumnValue y m.file2Column) = true)
    (_h2 : isValueMatch (getColumnValue x2 m.file1Column) (getColumnValue y m.file2Column) = true)
    (h3 : isValueMatch (getColumnValue x1 m.file1Column) (getColumnValue y1 m.file2Column) = true)
    (_h4 : isValueMatch (getColumnValue x1 m.file1Column) (getColumnValue y2 m.file2Column) = true) :
    findDuplicatesAndUnique ⟨[x1, x2], cols1⟩ ⟨[y], cols2⟩ m = ([(x1, y)], [x2], []) ∧
    findDuplicatesAndUnique ⟨[x1], cols1⟩ ⟨[y1, y2], cols2⟩ m = ([(x1, y1)], [], [y2]) := by
  constructor
  · simp [findDuplicatesAndUnique, fduGo, extractFirstMatch, h1]
  · simp [findDuplicatesAndUnique, fduGo, extractFirstMatch, h3]

/-- Witness for C4 at concrete records with key column "k" and key "X". -/
theorem c4_witness :
    (isValueMatch (getColumnValue ⟨0, [("k", Value.vStr "X")]⟩ (ColumnMapping.mk "k" "k").file1Column)
        (getColumnValue ⟨2, [("k", Value.vStr "X")]⟩ (ColumnMapping.mk "k" "k").file2Column) = true) ∧
    findDuplicatesAndUnique ⟨[⟨0, [("k", Value.vStr "X")]⟩, ⟨1, [("k", Value.vStr "X")]⟩], ["k"]⟩
        ⟨[⟨2, [("k", Value.vStr "X")]⟩], ["k"]⟩ ⟨"k", "k"⟩
      = ([(⟨0, [("k", Value.vStr "X")]⟩, ⟨2, [("k", Value.vStr "X")]⟩)],
         [⟨1, [("k", Value.vStr "X")]⟩], []) ∧
    findDuplicatesAndUnique ⟨[⟨0, [("k", Value.vStr "X")]⟩], ["k"]⟩
        ⟨[⟨2, [("k", Value.vStr "X")]⟩, ⟨3, [("k", Value.vStr "X")]⟩], ["k"]⟩ ⟨"k", "k"⟩
      = ([(⟨0, [("k", Value.vStr "X")]⟩, ⟨2, [("k", Value.vStr "X")]⟩)], [],
         [⟨3, [("k", Value.vStr "X")]⟩]) := by
  refine ⟨by decide, ?_, ?_⟩
  · exact (c4_greedy_first_match ⟨"k", "k"⟩ ["k"] ["k"]
      ⟨0, [("k", Value.vStr "X")]⟩ ⟨1, [("k", Value.vStr "X")]⟩ ⟨2, [("k", Value.vStr "X")]⟩
      ⟨2, [("k", Value.vStr "X")]⟩ ⟨3, [("k", Value.vStr "X")]⟩
      (by decide) (by decide) (by decide) (by decide)).1
  · exact (c4_greedy_first_match ⟨"k", "k"⟩ ["k"] ["k"]
      ⟨0, [("k", Value.vStr "X")]⟩ ⟨1, [("k", Value.vStr "X")]⟩ ⟨2, [("k", Value.vStr "X")]⟩
      ⟨2, [("k", Value.vStr "X")]⟩ ⟨3, [("k", Value.vStr "X")]⟩
      (by decide) (by decide) (by decide) (by decide)).2

/-- Claim C5: the null-handling precedence of `applyMergeOperation`. If the
first value is null/absent the result is the second unless the operator is
TAKE_OLD (then the first); otherwise, if the second value is null/absent the
result is the first unless the operator is TAKE_NEW (then the second), and
this applies before the operator dispatch, uniformly for every operator
string. -/
theorem c5_null_precedence (a b : Value) (op : String) (ha : a ≠ Value.vNull) :
    (applyMergeOperation Value.vNull b op = if op = "TAKE_OLD" then Value.vNull else b) ∧
    (applyMergeOperation a Value.vNull op = if op = "TAKE_NEW" then Value.vNull else a) := by
  constructor
  · simp [applyMergeOperation]
  · simp [applyMergeOperation, ha]

/-- Witness for C5 at the numeric operator SUM with concrete values. -/
theorem c5_witness :
    applyMergeOperation Value.vNull (Value.vStr "q") "SUM" = Value.vStr "q" ∧
    applyMergeOperation (Value.vNum 5) Value.vNull "SUM" = Value.vNum 5 := by
  have h := c5_null_precedence (Value.vNum 5) (Value.vStr "q") "SUM" (by decide)
  constructor
  · have h1 := h.1
    rwa [if_neg (by decide)] at h1
  · have h2 := h.2
    rwa [if_neg (by decide)] at h2

/-- Counterexample for C6: the claimed evaluations are false on the code.
`applyMergeOperation(5, null, TAKE_NEW)` returns the (null) second value,
not 5, and `applyMergeOperation(null, 5, TAKE_OLD)` returns the (null)
first value, not 5. -/
theorem c6_counterexample :
    applyMergeOperation (Value.vNum 5) Value.vNull "TAKE_NEW" ≠ Value.vNum 5 ∧
    applyMergeOperation Value.vNull (Value.vNum 5) "TAKE_OLD" ≠ Value.vNum 5 := by
  decide

/-- Claim C6 (amended): TAKE_NEW always returns the second value and
TAKE_OLD always returns the first, including when that side is null: the
null-handling preamble never overrides the direction of these two
operators, so `applyMergeOperation(5, null, TAKE_NEW) = null` and
`applyMergeOperation(null, 5, TAKE_OLD) = null`. -/
theorem c6_take_directions (a b : Value) :
    applyMergeOperation a b "TAKE_NEW" = b ∧
    applyMergeOperation a b "TAKE_OLD" = a ∧
    applyMergeOperation (Value.vNum 5) Value.vNull "TAKE_NEW" = Value.vNull ∧
    applyMergeOperation Value.vNull (Value.vNum 5) "TAKE_OLD" = Value.vNull := by
  refine ⟨?_, ?_, by decide, by decide⟩
  · by_cases ha : a = Value.vNull
    · simp [applyMergeOperation, ha]
    · by_cases hb : b = Value.vNull
      · simp [applyMergeOperation, ha, hb]
      · simp [applyMergeOperation, ha, hb]
  · by_cases ha : a = Value.vNull
    · simp [applyMergeOperation, ha]
    · by_cases hb : b = Value.vNull
      · simp [applyMergeOperation, ha, hb]
      · simp [applyMergeOperation, ha, hb]

/-- Counterexample for C7: commutativity of SUM fails for values that are
not both numeric, because the NaN fallback returns the first operand:
`applyOperator(5, "x", SUM) = 5` while `applyOperator("x", 5, SUM) = "x"`. -/
theorem c7_counterexample :
    applyMergeOperation (Value.vNum 5) (Value.vStr "x") "SUM" ≠
      applyMergeOperation (Value.vStr "x") (Value.vNum 5) "SUM" := by
  decide

theorem coerceNum_vNum_one : coerceNum (Value.vNum 1) = some 1 := by
  have h : coerceNum (Value.vNum 1) =
      some ((1 : ℚ) * ((digitsToNat ['1'] : ℚ) + (digitsToNat [] : ℚ) / (10 : ℚ) ^ (0 : Nat))) := rfl
  rw [h, show (digitsToNat ['1'] : Nat) = 1 from by decide,
    show (digitsToNat [] : Nat) = 0 from rfl]
  norm_num

theorem coerceNum_vNum_two : coerceNum (Value.vNum 2) = some 2 := by
  have h : coerceNum (Value.vNum 2) =
      some ((1 : ℚ) * ((digitsToNat ['2'] : ℚ) + (digitsToNat [] : ℚ) / (10 : ℚ) ^ (0 : Nat))) := rfl
  rw [h, show (digitsToNat ['2'] : Nat) = 2 from by decide,
    show (digitsToNat [] : Nat) = 0 from rfl]
  norm_num

/-- Claim C7 (amended): for values that both coerce to numbers, SUM, AVG,
MIN and MAX are commutative in `applyMergeOperation`; SUBTRACT and DIVIDE
are not commutative (witnessed at 1 and 2). For values that do not both
coerce, commutativity fails (see the counterexample), so the numeric
hypothesis is necessary. -/
theorem c7_commutativity (a b : Value) (x y : ℚ)
    (ha : coerceNum a = some x) (hb : coerceNum b = some y) :
    (applyMergeOperation a b "SUM" = applyMergeOperation b a "SUM") ∧
    (applyMergeOperation a b "AVG" = applyMergeOperation b a "AVG") ∧
    (applyMergeOperation a b "MIN" = applyMergeOperation b a "MIN") ∧
    (applyMergeOperation a b "MAX" = applyMergeOperation b a "MAX") ∧
    applyMergeOperation (Value.vNum 1) (Value.vNum 2) "SUBTRACT" ≠
      applyMergeOperation (Value.vNum 2) (Value.vNum 1) "SUBTRACT" ∧
    applyMergeOperation (Value.vNum 1) (Value.vNum 2) "DIVIDE" ≠
      applyMergeOperation (Value.vNum 2) (Value.vNum 1) "DIVIDE" := by
  have hnull : coerceNum Value.vNull = none := by decide
  have han : a ≠ Value.vNull := by
    intro h; rw [h, hnull] at ha; cases ha
  have hbn : b ≠ Value.vNull := by
    intro h; rw [h, hnull] at hb; cases hb
  refine ⟨?_, ?_, ?_, ?_, ?_, ?_⟩
  · simp [applyMergeOperation, han, hbn, performNumericOperation, ha, hb]
    rw [add_comm]
  · simp [applyMergeOperation, han, hbn, performNumericOperation, ha, hb]
    rw [add_comm]
  · simp [applyMergeOperation, han, hbn, performNumericOperation, ha, hb]
    rw [min_comm]
  · simp [applyMergeOperation, han, hbn, performNumericOperation, ha, hb]
    rw [max_comm]
  · simp [applyMergeOperation, performNumericOperation, coerceNum_vNum_one, coerceNum_vNum_two]
    norm_num [round2]
  · simp [applyMergeOperation, performNumericOperation, coerceNum_vNum_one, coerceNum_vNum_two]
    norm_num [round2]

/-- Witness for C7 at the numeric values 1 and 2. -/
theorem c7_witness :
    (applyMergeOperation (Value.vNum 1) (Value.vNum 2) "SUM" =
      applyMergeOperation (Value.vNum 2) (Value.vNum 1) "SUM") ∧
    (applyMergeOperation (Value.vNum 1) (Value.vNum 2) "AVG" =
      applyMergeOperation (Value.vNum 2) (Value.vNum 1) "AVG") ∧
    (applyMergeOperation (Value.vNum 1) (Value.vNum 2) "MIN" =
      applyMergeOperation (Value.vNum 2) (Value.vNum 1) "MIN") ∧
    (applyMergeOperation (Value.vNum 1) (Value.vNum 2) "MAX" =
      applyMergeOperation (Value.vNum 2) (Value.vNum 1) "MAX") ∧
    applyMergeOperation (Value.vNum 1) (Value.vNum 2) "SUBTRACT" ≠
      applyMergeOperation (Value.vNum 2) (Value.vNum 1) "SUBTRACT" ∧
    applyMergeOperation (Value.vNum 1) (Value.vNum 2) "DIVIDE" ≠
      applyMergeOperation (Value.vNum 2) (Value.vNum 1) "DIVIDE" :=
  c7_commutativity (Value.vNum 1) (Value.vNum 2) 1 2 coerceNum_vNum_one coerceNum_vNum_two

/-
Helper lemmas for the merged-output size in processDuplicates.
-/

theorem pushUnless_foldl (dups : List (Rec × Rec)) :
    ∀ (l acc : List Rec),
      l.foldl (pushUnlessDuplicate dups) acc
        = acc ++ l.filter (fun r => !(dups.any (fun dup => decide (dup.2 = r)))) := by
  intro l
  induction l with
  | nil => intro acc; simp
  | cons r rest ih =>
    intro acc
    have heta : ({ rid := r.rid, fields := r.fields } : Rec) = r := rfl
    rw [List.foldl_cons]
    cases h : dups.any (fun dup => decide (dup.2 = r)) with
    | true =>
      rw [show pushUnlessDuplicate dups acc r = acc from by simp [pushUnlessDuplicate, h]]
      rw [ih, List.filter_cons]
      simp [h]
    | false =>
      rw [show pushUnlessDuplicate dups acc r = acc ++ [r] from by
        simp [pushUnlessDuplicate, h, heta]]
      rw [ih, List.filter_cons]
      simp [h]

theorem replaceFold_length (dm : List Rec) :
    ∀ (l : List (Nat × (Rec × Rec))) (acc : List Rec),
      (l.foldl (replaceMergedStep dm) acc).length = acc.length := by
  intro l
  induction l with
  | nil => intro acc; rfl
  | cons x rest ih =>
    intro acc
    rw [List.foldl_cons, ih]
    unfold replaceMergedStep
    cases h : acc.findIdx? (fun record => decide (record = x.2.1)) with
    | some i => simp
    | none => rfl

theorem filter_not_dup_length (dups : List (Rec × Rec)) (f2 u2f : List Rec)
    (hperm : (dups.map Prod.snd ++ u2f).Perm f2) (hnd : f2.Nodup) :
    (f2.filter (fun r => !(dups.any (fun dup => decide (dup.2 = r))))).length = u2f.length := by
  have hcount := List.Perm.countP_eq
    (fun r => !(dups.any (fun dup => decide (dup.2 = r)))) hperm
  rw [List.countP_append] at hcount
  have hnodup : (dups.map Prod.snd ++ u2f).Nodup := (hperm.nodup_iff).mpr hnd
  have hdisj := (List.nodup_append.mp hnodup).2.2
  have hzero : (dups.map Prod.snd).countP
      (fun r => !(dups.any (fun dup => decide (dup.2 = r)))) = 0 := by
    rw [List.countP_eq_zero]
    intro a ha
    obtain ⟨dup, hdup, hda⟩ := List.mem_map.mp ha
    have hany : dups.any (fun d => decide (d.2 = a)) = true :=
      List.any_eq_true.mpr ⟨dup, hdup, by simp [hda]⟩
    simp [hany]
  have hfull : u2f.countP
      (fun r => !(dups.any (fun dup => decide (dup.2 = r)))) = u2f.length := by
    rw [List.countP_eq_length]
    intro a ha
    have hmem : a ∉ dups.map Prod.snd := fun hm => hdisj hm ha
    cases hany : dups.any (fun d => decide (d.2 = a)) with
    | false => simp [hany]
    | true =>
      obtain ⟨d, hd, hda⟩ := List.any_eq_true.mp hany
      exact absurd (List.mem_map.mpr ⟨d, hd, by simpa using hda⟩) hmem
  rw [← List.countP_eq_length_filter, ← hcount, hzero, hfull, Nat.zero_add]

theorem build_mergedCount_col (file1 file2 : FileData) (cm : ColumnMapping)
    (mo : MergeOptions) (hma : hasMergeAll mo = false) :
    (buildProcessedData file1 file2 cm mo).stats.mergedCount
      = (buildProcessedData file1 file2 cm mo).stats.duplicateCount := by
  simp [buildProcessedData, calculateStatistics, hma, mergeDuplicateRecords]

theorem build_mergedCount_ma (file1 file2 : FileData) (cm : ColumnMapping)
    (mo : MergeOptions) (hma : hasMergeAll mo = true) (hnd : file2.data.Nodup) :
    (buildProcessedData file1 file2 cm mo).stats.mergedCount
      + (buildProcessedData file1 file2 cm mo).stats.duplicateCount
      = (buildProcessedData file1 file2 cm mo).stats.totalFile1
        + (buildProcessedData file1 file2 cm mo).stats.totalFile2 := by
  have hperm := fduGo_perm cm file1.data file2.data
  have hl2 := fduGo_length2 cm file1.data file2.data
  simp only [buildProcessedData, findDuplicatesAndUnique, calculateStatistics, hma, if_true]
  rw [replaceFold_length, pushUnless_foldl, List.length_append]
  rw [filter_not_dup_length (fduGo cm file1.data file2.data).1 file2.data
    (fduGo cm file1.data file2.data).2.2 hperm hnd]
  omega

def c1File1 : FileData := ⟨[⟨0, [("k", Value.vStr "1")]⟩], ["k"]⟩

def c1File2 : FileData := ⟨[⟨1, [("k", Value.vStr "2")]⟩], ["k"]⟩

def c1Mapping : ColumnMapping := ⟨"k", "k"⟩

def c1Options : MergeOptions := ⟨[⟨"x", "MERGE_ALL"⟩]⟩

def c1Expected : ProcessedData :=
  ⟨[], [⟨0, [("k", Value.vStr "1")]⟩], [⟨1, [("k", Value.vStr "2")]⟩],
    [⟨0, [("k", Value.vStr "1")]⟩, ⟨1, [("k", Value.vStr "2")]⟩],
    ⟨1, 1, 0, 1, 1, 2⟩⟩

/-- Counterexample for C1: an accepted merge-all input (two non-empty
one-record files with non-matching keys, valid mapping, one MERGE_ALL
operation) for which processDuplicates succeeds with mergedCount = 2 but
duplicateCount = 0. -/
theorem c1_counterexample :
    (processDuplicates c1File1 c1File2 c1Mapping c1Options).toOption.map
      (fun pd => decide (pd.stats.mergedCount = pd.stats.duplicateCount)) = some false := by
  decide

/-- Claim C1 (amended): for every accepted input, in column-operation mode
(no MERGE_ALL among the operations) the returned statistics satisfy
mergedCount = duplicateCount; in merge-all mode the merged output instead
combines all records of both files, so mergedCount + duplicateCount =
totalFile1 + totalFile2 (assuming the file2 rows are pairwise distinct
objects, which holds for parsed datasets). -/
theorem c1_merged_count (file1 file2 : FileData) (cm : ColumnMapping) (mo : MergeOptions)
    (pd : ProcessedData) (h : processDuplicates file1 file2 cm mo = Except.ok pd)
    (hnd : file2.data.Nodup) :
    (hasMergeAll mo = false → pd.stats.mergedCount = pd.stats.duplicateCount) ∧
    (hasMergeAll mo = true →
      pd.stats.mergedCount + pd.stats.duplicateCount
        = pd.stats.totalFile1 + pd.stats.totalFile2) := by
  have hpd : pd = buildProcessedData file1 file2 cm mo := by
    unfold processDuplicates processDuplicatesCore at h
    cases hv : validateProcessingInputs file1 file2 cm mo with
    | error e => rw [hv] at h; simp at h
    | ok u => rw [hv] at h; simpa using h.symm
  subst hpd
  exact ⟨fun hma => build_mergedCount_col file1 file2 cm mo hma,
    fun hma => build_mergedCount_ma file1 file2 cm mo hma hnd⟩

/-- Witness for C1 (amended) at the concrete merge-all input above. -/
theorem c1_witness :
    (hasMergeAll c1Options = false →
      c1Expected.stats.mergedCount = c1Expected.stats.duplicateCount) ∧
    (hasMergeAll c1Options = true →
      c1Expected.stats.mergedCount + c1Expected.stats.duplicateCount
        = c1Expected.stats.totalFile1 + c1Expected.stats.totalFile2) :=
  c1_merged_count c1File1 c1File2 c1Mapping c1Options c1Expected (by rfl) (by decide)

/-
Helper lemmas about record field assignment and the per-column merge loop.
-/

theorem getFieldList_setFieldList (fs : List (String × Value)) (k : String) (v : Value)
    (c : String) :
    getFieldList (setFieldList fs k v) c = if c = k then some v else getFieldList fs c := by
  induction fs with
  | nil =>
    by_cases h : c = k
    · simp [setFieldList, getFieldList, h]
    · simp [setFieldList, getFieldList, h, Ne.symm h]
  | cons p rest ih =>
    obtain ⟨k1, v1⟩ := p
    by_cases h1 : k1 = k
    · subst h1
      by_cases h : c = k1
      · simp [setFieldList, getFieldList, h]
      · simp [setFieldList, getFieldList, h, Ne.symm h]
    · by_cases h : c = k1
      · subst h
        simp [setFieldList, getFieldList, h1, Ne.symm h1]
      · simp [setFieldList, getFieldList, h1, h, Ne.symm h, ih]

theorem mem_keys_setFieldList (fs : List (String × Value)) (k : String) (v : Value)
    (c : String) :
    c ∈ (setFieldList fs k v).map Prod.fst ↔ c ∈ fs.map Prod.fst ∨ c = k := by
  induction fs with
  | nil => simp [setFieldList]
  | cons p rest ih =>
    obtain ⟨k1, v1⟩ := p
    by_cases h1 : k1 = k
    · subst h1
      simp [setFieldList]
      tauto
    · simp [setFieldList, h1, ih]
      tauto

theorem colFold_frame (rA rB : Rec) (col : String) :
    ∀ (ops : List MergeOperation) (acc : Rec), (∀ op ∈ ops, op.column ≠ col) →
      getFieldList (ops.foldl (colStep rA rB) acc).fields col = getFieldList acc.fields col := by
  intro ops
  induction ops with
  | nil => intro acc h; rfl
  | cons op rest ih =>
    intro acc h
    rw [List.foldl_cons, ih _ (fun o ho => h o (List.mem_cons_of_mem _ ho))]
    unfold colStep
    by_cases hma : op.operation = "MERGE_ALL"
    · simp [hma]
    · have hc := h op (List.mem_cons_self _ _)
      have hne : ¬(col = op.column) := fun h2 => hc h2.symm
      simp [hma, Rec.setField, getFieldList_setFieldList, hne]

theorem colFold_keys (rA rB : Rec) (col : String) :
    ∀ (ops : List MergeOperation) (acc : Rec),
      (col ∈ (ops.foldl (colStep rA rB) acc).fields.map Prod.fst ↔
        col ∈ acc.fields.map Prod.fst
          ∨ ∃ op ∈ ops, ¬op.operation = "MERGE_ALL" ∧ op.column = col) := by
  intro ops
  induction ops with
  | nil => intro acc; simp
  | cons op rest ih =>
    intro acc
    rw [List.foldl_cons, ih]
    unfold colStep
    by_cases hma : op.operation = "MERGE_ALL"
    · simp only [hma, if_true, List.mem_cons]
      constructor
      · rintro (h | h)
        · exact Or.inl h
        · exact Or.inr (by obtain ⟨o, ho, hrest⟩ := h; exact ⟨o, Or.inr ho, hrest⟩)
      · rintro (h | ⟨o, ho | ho, hno, hcol⟩)
        · exact Or.inl h
        · subst ho; exact absurd hma hno
        · exact Or.inr ⟨o, ho, hno, hcol⟩
    · simp only [hma, if_false, Rec.setField, mem_keys_setFieldList, List.mem_cons]
      constructor
      · rintro ((h | h) | h)
        · exact Or.inl h
        · exact Or.inr ⟨op, Or.inl rfl, hma, h.symm⟩
        · exact Or.inr (by obtain ⟨o, ho, hrest⟩ := h; exact ⟨o, Or.inr ho, hrest⟩)
      · rintro (h | ⟨o, ho | ho, hno, hcol⟩)
        · exact Or.inl (Or.inl h)
        · subst ho; exact Or.inl (Or.inr hcol.symm)
        · exact Or.inr ⟨o, ho, hno, hcol⟩

def c8File1 : FileData := ⟨[⟨0, [("a", Value.vNum 1), ("k", Value.vStr "x")]⟩], ["a", "k"]⟩

def c8File2 : FileData := ⟨[⟨1, [("b", Value.vNum 2), ("k", Value.vStr "x")]⟩], ["b", "k"]⟩

def c8Mapping : ColumnMapping := ⟨"k", "k"⟩

def c8Options : MergeOptions := ⟨[⟨"b", "SUM"⟩]⟩

/-- Counterexample for C8: an accepted column-operation input (no MERGE_ALL)
whose single operation names a column that exists only in file 2; the merged
record gains that column, so its column set is not recordA's column set. -/
theorem c8_counterexample :
    ((processDuplicates c8File1 c8File2 c8Mapping c8Options).toOption.map
      (fun pd => pd.merged.map (fun r => r.fields.map Prod.fst)) = some [["a", "k", "b"]]) ∧
    (["a", "k", "b"] : List String) ≠ ["a", "k"] := by
  constructor
  · decide
  · decide

/-- Claim C8 (amended): in column-operation mode, for every duplicate pair
the merged record keeps recordA's value unchanged in every column not named
by any operation, and the merged record's column set is recordA's column
set united with the operation columns — so the schema can also grow in
column-operation mode, namely when an operation names a column absent from
recordA. -/
theorem c8_column_op_frame (mo : MergeOptions) (rA rB : Rec)
    (h : hasMergeAll mo = false) :
    (∀ col, (∀ op ∈ mo.operations, op.column ≠ col) →
      (mergePair mo rA rB).getField col = rA.getField col) ∧
    (∀ col, col ∈ (mergePair mo rA rB).fields.map Prod.fst ↔
      (col ∈ rA.fields.map Prod.fst ∨ ∃ op ∈ mo.operations, op.column = col)) := by
  have hnoma : ∀ op ∈ mo.operations, ¬(op.operation = "MERGE_ALL") := by
    simp only [hasMergeAll, List.any_eq_false, decide_eq_true_eq] at h
    exact h
  unfold mergePair
  simp only [h, Bool.false_eq_true, if_false]
  constructor
  · intro col hcol
    unfold columnOpMerge Rec.getField
    exact colFold_frame rA rB col mo.operations _ hcol
  · intro col
    unfold columnOpMerge
    rw [colFold_keys]
    constructor
    · rintro (hmem | ⟨op, hop, _, hcol⟩)
      · exact Or.inl hmem
      · exact Or.inr ⟨op, hop, hcol⟩
    · rintro (hmem | ⟨op, hop, hcol⟩)
      · exact Or.inl hmem
      · exact Or.inr ⟨op, hop, hnoma op hop, hcol⟩

/-- Witness for C8 (amended) at the concrete pair from the counterexample
input: column "a" (unnamed) keeps recordA's value, and column "b" is in the
merged column set exactly because an operation names it. -/
theorem c8_witness :
    ((mergePair c8Options ⟨0, [("a", Value.vNum 1), ("k", Value.vStr "x")]⟩
        ⟨1, [("b", Value.vNum 2), ("k", Value.vStr "x")]⟩).getField "a"
      = (⟨0, [("a", Value.vNum 1), ("k", Value.vStr "x")]⟩ : Rec).getField "a") ∧
    ("b" ∈ (mergePair c8Options ⟨0, [("a", Value.vNum 1), ("k", Value.vStr "x")]⟩
        ⟨1, [("b", Value.vNum 2), ("k", Value.vStr "x")]⟩).fields.map Prod.fst ↔
      ("b" ∈ (⟨0, [("a", Value.vNum 1), ("k", Value.vStr "x")]⟩ : Rec).fields.map Prod.fst
        ∨ ∃ op ∈ c8Options.operations, op.column = "b")) := by
  have h := c8_column_op_frame c8Options ⟨0, [("a", Value.vNum 1), ("k", Value.vStr "x")]⟩
    ⟨1, [("b", Value.vNum 2), ("k", Value.vStr "x")]⟩ (by decide)
  exact ⟨h.1 "a" (by decide), h.2 "b"⟩

/-
Helper lemmas for the error-accumulation shape of validateResults.
-/

theorem mem_ite_singleton (c : Prop) [Decidable c] (m x : String) :
    (x ∈ (if c then [m] else ([] : List String))) ↔ (c ∧ x = m) := by
  split <;> simp_all

theorem ite_singleton_eq_nil (c : Prop) [Decidable c] (m : String) :
    ((if c then [m] else ([] : List String)) = []) ↔ ¬c := by
  split <;> simp_all

/-- Counterexample for C9: when a result field is null/undefined while stats
is present, validateResults does not report the failure in the errors list —
it throws (a TypeError from reading `.length` of the non-array), so not
every failure is "reported rather than thrown". -/
theorem c9_counterexample :
    validateResults ⟨JArr.jnull, JArr.arr [], JArr.arr [], JArr.arr [], some ⟨1, 1, 0, 1, 1, 0⟩⟩
      = Except.error ("TypeError: cannot read length") := by
  rfl

/-- Claim C9 (amended): when the four result fields actually are arrays,
validateResults returns without throwing, valid is true iff all six count
checks pass, and the checks are independent and accumulate: each failing
check contributes exactly its own message to the errors list (a message is
present iff its check fails), with nothing silently corrected. If a field
is null/undefined while stats is present, the function instead throws (see
the counterexample). -/
theorem c9_validate_results_iff (d u1 u2 m : List Rec) (s : Stats) (v : Bool)
    (errs : List String)
    (h : validateResults ⟨JArr.arr d, JArr.arr u1, JArr.arr u2, JArr.arr m, some s⟩
      = Except.ok (v, errs)) :
    ((v = true) ↔ (s.duplicateCount = d.length ∧ s.uniqueFile1Count = u1.length ∧
      s.uniqueFile2Count = u2.length ∧ s.mergedCount = m.length ∧
      s.duplicateCount + s.uniqueFile1Count = s.totalFile1 ∧
      s.duplicateCount + s.uniqueFile2Count = s.totalFile2)) ∧
    (("Duplicate count mismatch" ∈ errs) ↔ s.duplicateCount ≠ d.length) ∧
    (("Unique File 1 count mismatch" ∈ errs) ↔ s.uniqueFile1Count ≠ u1.length) ∧
    (("Unique File 2 count mismatch" ∈ errs) ↔ s.uniqueFile2Count ≠ u2.length) ∧
    (("Merged count mismatch" ∈ errs) ↔ s.mergedCount ≠ m.length) ∧
    (("File 1 total count mismatch" ∈ errs) ↔
      s.duplicateCount + s.uniqueFile1Count ≠ s.totalFile1) ∧
    (("File 2 total count mismatch" ∈ errs) ↔
      s.duplicateCount + s.uniqueFile2Count ≠ s.totalFile2) := by
  simp only [validateResults, isArrayB, jsLength, if_true, List.nil_append] at h
  rw [Except.ok.injEq, Prod.mk.injEq] at h
  obtain ⟨hb, he⟩ := h
  subst he
  subst hb
  refine ⟨?_, ?_, ?_, ?_, ?_, ?_, ?_⟩
  · simp only [List.isEmpty_iff, List.append_eq_nil, ite_singleton_eq_nil, not_not]
    tauto
  all_goals
    simp only [List.mem_append, mem_ite_singleton]
    simp

def c9OkStats : Stats := ⟨0, 0, 0, 0, 0, 0⟩

/-- Witness for C9 (amended) at the all-empty consistent result. -/
theorem c9_witness :
    ((true = true) ↔ (c9OkStats.duplicateCount = ([] : List Rec).length ∧
      c9OkStats.uniqueFile1Count = ([] : List Rec).length ∧
      c9OkStats.uniqueFile2Count = ([] : List Rec).length ∧
      c9OkStats.mergedCount = ([] : List Rec).length ∧
      c9OkStats.duplicateCount + c9OkStats.uniqueFile1Count = c9OkStats.totalFile1 ∧
      c9OkStats.duplicateCount + c9OkStats.uniqueFile2Count = c9OkStats.totalFile2)) ∧
    (("Duplicate count mismatch" ∈ ([] : List String)) ↔
      c9OkStats.duplicateCount ≠ ([] : List Rec).length) ∧
    (("Unique File 1 count mismatch" ∈ ([] : List String)) ↔
      c9OkStats.uniqueFile1Count ≠ ([] : List Rec).length) ∧
    (("Unique File 2 count mismatch" ∈ ([] : List String)) ↔
      c9OkStats.uniqueFile2Count ≠ ([] : List Rec).length) ∧
    (("Merged count mismatch" ∈ ([] : List String)) ↔
      c9OkStats.mergedCount ≠ ([] : List Rec).length) ∧
    (("File 1 total count mismatch" ∈ ([] : List String)) ↔
      c9OkStats.duplicateCount + c9OkStats.uniqueFile1Count ≠ c9OkStats.totalFile1) ∧
    (("File 2 total count mismatch" ∈ ([] : List String)) ↔
      c9OkStats.duplicateCount + c9OkStats.uniqueFile2Count ≠ c9OkStats.totalFile2) :=
  c9_validate_results_iff [] [] [] [] c9OkStats true [] (by rfl)

/-
Helper lemmas about the session store.
-/

theorem assocLookup_assocSet {α : Type} (l : List (String × α)) (k : String) (v : α) :
    assocLookup (assocSet l k v) k = some v := by
  induction l with
  | nil => simp [assocSet, assocLookup]
  | cons p rest ih =>
    obtain ⟨k1, v1⟩ := p
    by_cases h : k1 = k
    · simp [assocSet, assocLookup, h]
    · simp [assocSet, assocLookup, h, ih]

theorem assocLookup_assocErase {α : Type} (l : List (String × α)) (k : String) :
    assocLookup (assocErase l k) k = none := by
  induction l with
  | nil => rfl
  | cons p rest ih =>
    obtain ⟨k1, v1⟩ := p
    by_cases h : k1 = k
    · simpa [assocErase, List.filter_cons, h] using ih
    · simpa [assocErase, List.filter_cons, h, assocLookup] using ih

theorem scheduleSessionCleanup_sessions (now : Int) (sid : String) (st : SessionStore) :
    (scheduleSessionCleanup now sid st).sessions = st.sessions := by
  unfold scheduleSessionCleanup
  cases assocLookup st.cleanupTimeouts sid <;> rfl

theorem scheduleSessionCleanup_mem_timer (now : Int) (sid : String) (st : SessionStore) :
    (st.nextTimer, sid, now + SESSION_TIMEOUT) ∈ (scheduleSessionCleanup now sid st).timers := by
  unfold scheduleSessionCleanup
  cases assocLookup st.cleanupTimeouts sid <;> simp

theorem deleteSession_lookup_none (sid : String) (st : SessionStore) :
    assocLookup (deleteSession sid st).2.sessions sid = none := by
  unfold deleteSession
  cases h1 : assocLookup st.sessions sid with
  | none => exact h1
  | some s =>
    cases hx : assocLookup st.cleanupTimeouts sid <;> simp [assocLookup_assocErase]

def c2Session : UserSession := ⟨"s", 0, 0, 0⟩

def c2Store : SessionStore := ⟨[("s", c2Session)], [(0, "s", 900000)], [("s", 0)], 1⟩

/-- Counterexample for C2 (boundary): when the callback runs at an idle time
of exactly the 15-minute TTL (900000 ms), the idle time does not exceed the
TTL, yet the callback deletes the session: the code deletes at idle >= TTL,
not idle > TTL. -/
theorem c2_counterexample :
    assocLookup (sessionCleanupCallback 900000 "s" c2Store).sessions "s" = none ∧
    ¬(SESSION_TIMEOUT < 900000 - c2Session.lastActivity) := by
  constructor
  · decide
  · decide

/-- Claim C2 (amended): the timer callback re-checks idle time against the
current lastActivity: if at the moment the callback runs the session has
been refreshed so that its idle time is strictly below the TTL — in
particular whenever lastActivity was refreshed after the timer was armed and
the timer fires on schedule — the callback does not delete the session and
arms a fresh cleanup timer for TTL from now; it deletes exactly when the
idle time meets or exceeds (>=, not strictly exceeds) the TTL at that
moment. -/
theorem c2_recheck_before_delete (st : SessionStore) (sid : String) (s : UserSession)
    (now : Int) (h : assocLookup st.sessions sid = some s) :
    (now - s.lastActivity < SESSION_TIMEOUT →
      assocLookup (sessionCleanupCallback now sid st).sessions sid = some s ∧
      (st.nextTimer, sid, now + SESSION_TIMEOUT) ∈ (sessionCleanupCallback now sid st).timers) ∧
    (SESSION_TIMEOUT ≤ now - s.lastActivity →
      assocLookup (sessionCleanupCallback now sid st).sessions sid = none) := by
  constructor
  · intro hlt
    have hcond : ¬(SESSION_TIMEOUT ≤ now - s.lastActivity) := by omega
    constructor
    · simp only [sessionCleanupCallback, h, if_neg hcond]
      rw [scheduleSessionCleanup_sessions]
      exact h
    · simp only [sessionCleanupCallback, h, if_neg hcond]
      exact scheduleSessionCleanup_mem_timer now sid st
  · intro hge
    simp only [sessionCleanupCallback, h, if_pos hge]
    exact deleteSession_lookup_none sid st

/-- Witness for C2 (amended): concrete store, callback firing well before
the TTL has elapsed, and the same store at the deletion boundary. -/
theorem c2_witness :
    (100 - c2Session.lastActivity < SESSION_TIMEOUT →
      assocLookup (sessionCleanupCallback 100 "s" c2Store).sessions "s" = some c2Session ∧
      (c2Store.nextTimer, "s", 100 + SESSION_TIMEOUT) ∈
        (sessionCleanupCallback 100 "s" c2Store).timers) ∧
    (SESSION_TIMEOUT ≤ 100 - c2Session.lastActivity →
      assocLookup (sessionCleanupCallback 100 "s" c2Store).sessions "s" = none) :=
  c2_recheck_before_delete c2Store "s" c2Session 100 (by decide)

/-- Claim C10: updateSession succeeds whenever the id is in the session map,
even when the session's idle time already strictly exceeds the 15-minute
TTL: it performs no staleness check, returns true and stores the merged
session with a fresh lastActivity = now (when the update supplies none),
while getSession on the same state reports the session as not found. -/
theorem c10_update_revives_stale (st : SessionStore) (sid : String) (s : UserSession)
    (now : Int) (upd : SessionUpdates)
    (h : assocLookup st.sessions sid = some s)
    (hstale : SESSION_TIMEOUT < now - s.lastActivity)
    (hla : upd.lastActivity = none) :
    (updateSession now sid upd st).1 = true ∧
    assocLookup (updateSession now sid upd st).2.sessions sid =
      some ⟨sid, s.createdAt, now, upd.payload.getD s.payload⟩ ∧
    (getSession now sid st).1 = none := by
  refine ⟨?_, ?_, ?_⟩
  · simp only [updateSession, h]
  · simp only [updateSession, h, hla]
    rw [scheduleSessionCleanup_sessions]
    exact assocLookup_assocSet st.sessions sid _
  · simp only [getSession, h, if_pos hstale]

/-- Witness for C10: a session idle for far longer than the TTL is revived
by updateSession but invisible to getSession. -/
theorem c10_witness :
    (updateSession 1000000 "s" ⟨some 9, none⟩ c2Store).1 = true ∧
    assocLookup (updateSession 1000000 "s" ⟨some 9, none⟩ c2Store).2.sessions "s" =
      some ⟨"s", c2Session.createdAt, 1000000, (some 9).getD c2Session.payload⟩ ∧
    (getSession 1000000 "s" c2Store).1 = none :=
  c10_update_revives_stale c2Store "s" c2Session 1000000 ⟨some 9, none⟩
    (by decide) (by decide) (by decide)
